import Mathlib

/-!
Verification development for the slide_automation voice-interaction pipeline.

The definitions below are a shallow embedding of the TypeScript sources:
* `frontend/src/app/hooks/useVoiceRAG.ts` — the manual-mode conversation
  orchestrator (`VoiceRAG` namespace);
* `frontend/src/app/hooks/useAmbientListener.ts` — continuous ambient capture
  (`Ambient` namespace);
* the `AIChatPanel` component — the auto-reply gate and chat-panel answer
  cycle (`Panel` namespace);
* the `VoicePanel` component — the manual-mode UI handlers.

Asynchronous fetch results (speech-to-text, retrieval, speech synthesis,
audio playback) are passed in as explicit environment values.  Network and
audio side effects are recorded in explicit effect lists so that theorems can
talk about which external requests a code path issues.
-/

set_option autoImplicit false

namespace ConsultDeck

/-- The whitespace class of JavaScript `String.prototype.trim` (the ASCII
part; the exotic Unicode space characters never occur in this pipeline). -/
def isJsSpace (c : Char) : Bool :=
  c = ' ' || c = '\t' || c = '\n' || c = '\r' || c = '\x0b' || c = '\x0c'

/-- JavaScript `String.prototype.trim`: strip leading and trailing
whitespace. -/
def jsTrim (s : String) : String :=
  String.mk (((s.data.dropWhile isJsSpace).reverse.dropWhile isJsSpace).reverse)

/-- `VoiceState` in `useVoiceRAG.ts`:
`"idle" | "listening" | "thinking" | "speaking" | "error"`. -/
inductive VoiceState where
  | idle
  | listening
  | thinking
  | speaking
  | error
deriving DecidableEq, Repr

/-- One element of the `sources` array returned by the retrieval collaborator
(`{ source, similarity }`). The similarity score is kept opaque as a `Nat`. -/
structure RagSource where
  source : String
  similarity : Nat
deriving DecidableEq, Repr

namespace VoiceRAG

/-- The reactive state of the `useVoiceRAG` hook: the five `useState` fields
plus the `audioRef` mutable ref.  `active` records which `Audio` elements are
currently playing (an element is added when `play()` starts and removed when
its playback ends or it is paused); `nextAudio` supplies fresh identifiers
for `new Audio(url)`. -/
structure RAGState where
  state : VoiceState
  transcript : String
  answer : String
  sources : List RagSource
  error : String
  audioRef : Option Nat
  active : List Nat
  nextAudio : Nat
deriving DecidableEq, Repr

/-- The observable external effects of a `useVoiceRAG` code path. -/
inductive Effect where
  | sttFetch (blobSize : Nat)
  | ragFetch (question : String)
  | ttsFetch (text : String)
  | playStart (audioId : Nat)
  | pauseAudio (audioId : Nat)
deriving DecidableEq, Repr

/-- Whether an effect pauses an audio stream. -/
def Effect.isPause : Effect → Bool
  | Effect.pauseAudio _ => true
  | _ => false

/-- Outcomes of the awaited collaborator calls inside one `processAudio`
run: whether each HTTP response was `ok`, the transcript and answer payloads,
and whether audio playback succeeded (`onended`) or failed (`onerror`). -/
structure FetchEnv where
  sttOk : Bool
  sttTranscript : String
  ragOk : Bool
  ragAnswer : String
  ragSources : List RagSource
  ttsOk : Bool
  playbackOk : Bool
deriving DecidableEq, Repr

/-- `processAudio` of `useVoiceRAG.ts`, lines 66–137, run to completion.
The returned effect list records every network request issued and every
playback action taken.  Note that the speech-to-text request is issued for
every blob — manual mode has no minimum-size threshold. -/
def processAudio (env : FetchEnv) (blobSize : Nat) (s : RAGState) :
    RAGState × List Effect :=
  let s := { s with state := VoiceState.thinking }
  let effs := [Effect.sttFetch blobSize]
  if !env.sttOk then
    ({ s with error := "Transcription failed", state := VoiceState.error }, effs)
  else
    let text := env.sttTranscript
    let s := { s with transcript := text }
    if jsTrim text = "" then
      ({ s with state := VoiceState.idle }, effs)
    else
      let effs := effs ++ [Effect.ragFetch text]
      if !env.ragOk then
        ({ s with error := "RAG query failed", state := VoiceState.error }, effs)
      else
        let s := { s with answer := env.ragAnswer, sources := env.ragSources,
                          state := VoiceState.speaking }
        let effs := effs ++ [Effect.ttsFetch env.ragAnswer]
        if !env.ttsOk then
          ({ s with error := "TTS failed", state := VoiceState.error }, effs)
        else
          let aid := s.nextAudio
          let s := { s with audioRef := some aid, active := aid :: s.active,
                            nextAudio := aid + 1 }
          let effs := effs ++ [Effect.playStart aid]
          if !env.playbackOk then
            ({ s with error := "Audio playback failed", state := VoiceState.error },
             effs)
          else
            ({ s with active := s.active.erase aid, state := VoiceState.idle },
             effs)

/-- `startListening` of `useVoiceRAG.ts`, lines 28–55: clear the `error`,
`answer` and `transcript` fields, then request the microphone.  `micOk`
tells whether `getUserMedia` succeeded. -/
def startListening (micOk : Bool) (s : RAGState) : RAGState :=
  let s := { s with error := "", answer := "", transcript := "" }
  if micOk then
    { s with state := VoiceState.listening }
  else
    { s with error := "Microphone access denied", state := VoiceState.error }

/-- `askText` of `useVoiceRAG.ts`, lines 140–183 (run up to the point where
playback has started; the `onended` handler later sets the state to idle).
`askText` performs no `res.ok` check on the retrieval response; `ragThrew`
models the fetch itself throwing, with message `exnMsg`. -/
def askText (env : FetchEnv) (exnMsg : String) (ragThrew : Bool)
    (question : String) (s : RAGState) : RAGState × List Effect :=
  if jsTrim question = "" then (s, [])
  else
    let s := { s with state := VoiceState.thinking, answer := "", sources := [],
                      transcript := question }
    let effs := [Effect.ragFetch question]
    if ragThrew then
      ({ s with error := exnMsg, state := VoiceState.error }, effs)
    else
      let s := { s with answer := env.ragAnswer, sources := env.ragSources,
                        state := VoiceState.speaking }
      let effs := effs ++ [Effect.ttsFetch env.ragAnswer]
      let aid := s.nextAudio
      let s := { s with audioRef := some aid, active := aid :: s.active,
                        nextAudio := aid + 1 }
      (s, effs ++ [Effect.playStart aid])

/-- `stopSpeaking` of `useVoiceRAG.ts`, lines 185–188:
`audioRef.current?.pause()` followed by `setState("idle")`. -/
def stopSpeaking (s : RAGState) : RAGState × List Effect :=
  match s.audioRef with
  | some aid =>
      ({ s with active := s.active.erase aid, state := VoiceState.idle },
       [Effect.pauseAudio aid])
  | none => ({ s with state := VoiceState.idle }, [])

end VoiceRAG

namespace VoicePanel

/-- What one click of the microphone button in `VoicePanel` does. -/
inductive MicAction where
  | startCapture
  | stopCapture
  | cancelSpeech
  | nothing
deriving DecidableEq, Repr

/-- `handleMicClick` of `VoicePanel`: dispatch on the orchestrator state.
A new capture starts only from `idle` or `error`. -/
def handleMicClick (s : VoiceState) : MicAction :=
  if s = VoiceState.idle ∨ s = VoiceState.error then MicAction.startCapture
  else if s = VoiceState.listening then MicAction.stopCapture
  else if s = VoiceState.speaking then MicAction.cancelSpeech
  else MicAction.nothing

/-- `handleTextAsk` of `VoicePanel`:
`if (!textInput.trim() || state !== "idle") return;` then `askText`. -/
def handleTextAsk (env : VoiceRAG.FetchEnv) (exnMsg : String) (ragThrew : Bool)
    (input : String) (s : VoiceRAG.RAGState) :
    VoiceRAG.RAGState × List VoiceRAG.Effect :=
  if jsTrim input = "" ∨ s.state ≠ VoiceState.idle then (s, [])
  else VoiceRAG.askText env exnMsg ragThrew input s

end VoicePanel

namespace Ambient

/-- `TranscriptEntry` of `useAmbientListener.ts`: `{ id, text, timestamp }`. -/
structure TranscriptEntry where
  id : String
  text : String
  timestamp : Nat
deriving DecidableEq, Repr

/-- The id string built in `transcribeChunk`:
`` `t-${Date.now()}-${idCounter.current++}` ``. -/
def mkEntryId (now ctr : Nat) : String :=
  "t-" ++ Nat.repr now ++ "-" ++ Nat.repr ctr

/-- The mutable state of one `useAmbientListener` instance: the two
`useState` fields, the refs, and the byte count accumulated in `chunksRef`
for the recording segment in progress.  `pendingOnstop` records that
`recorder.stop()` has been called and the recorder's (asynchronous) `onstop`
event has not fired yet. -/
structure AmbientState where
  isListening : Bool
  entries : List TranscriptEntry
  streamActive : Bool
  recorderRecording : Bool
  timerActive : Bool
  pendingOnstop : Bool
  chunkBytes : Nat
  idCounter : Nat
deriving DecidableEq, Repr

/-- Observable external effects of the ambient listener. -/
inductive AmbientEffect where
  | sttFetch (blobSize : Nat)
  | recorderStart
  | deviceReleased
deriving DecidableEq, Repr

/-- Result of the awaited speech-to-text round trip inside
`transcribeChunk`: the HTTP response was not ok, the fetch threw, or the
response parsed to the given `transcript` string. -/
inductive SttOutcome where
  | httpError
  | fetchError
  | ok (transcript : String)
deriving DecidableEq, Repr

/-- `transcribeChunk` of `useAmbientListener.ts`, lines 29–76, run to
completion for one blob.  Returns the new state, the effects (the
speech-to-text request, when one is issued), and the entry passed to the
`onTranscript` callback, when one is created.  Blobs below 1000 bytes are
dropped before any request; an empty or whitespace-only transcript creates
no entry. -/
def transcribeChunk (now : Nat) (outcome : SttOutcome) (blobSize : Nat)
    (s : AmbientState) :
    AmbientState × List AmbientEffect × Option TranscriptEntry :=
  if blobSize < 1000 then (s, [], none)
  else
    match outcome with
    | SttOutcome.httpError => (s, [AmbientEffect.sttFetch blobSize], none)
    | SttOutcome.fetchError => (s, [AmbientEffect.sttFetch blobSize], none)
    | SttOutcome.ok transcript =>
        let text := jsTrim transcript
        if text = "" then (s, [AmbientEffect.sttFetch blobSize], none)
        else
          let entry : TranscriptEntry :=
            { id := mkEntryId now s.idCounter, text := text, timestamp := now }
          ({ s with entries := s.entries ++ [entry],
                    idCounter := s.idCounter + 1 },
           [AmbientEffect.sttFetch blobSize], some entry)

/-- The `recorder.onstop` handler installed by `startRecorder`
(`useAmbientListener.ts`, lines 119–129), fired after a `recorder.stop()`:
build the blob from the buffered chunks, clear the buffer, run
`transcribeChunk`, and restart the recorder iff the stream is still active. -/
def deliverOnstop (now : Nat) (outcome : SttOutcome) (s : AmbientState) :
    AmbientState × List AmbientEffect × Option TranscriptEntry :=
  if !s.pendingOnstop then (s, [], none)
  else
    let blobSize := s.chunkBytes
    let s := { s with pendingOnstop := false, chunkBytes := 0 }
    let r := transcribeChunk now outcome blobSize s
    if r.1.streamActive then
      ({ r.1 with recorderRecording := true },
       r.2.1 ++ [AmbientEffect.recorderStart], r.2.2)
    else (r.1, r.2.1, r.2.2)

/-- The `ondataavailable` handler: buffer the data chunk's bytes. -/
def dataAvailable (bytes : Nat) (s : AmbientState) : AmbientState :=
  if bytes > 0 then { s with chunkBytes := s.chunkBytes + bytes } else s

/-- `harvestAndRestart` (`useAmbientListener.ts`, lines 79–85): if the
recorder is recording, call `recorder.stop()`, which queues the `onstop`
event.  Ticks only occur while the interval timer is active. -/
def harvestTick (s : AmbientState) : AmbientState :=
  if s.timerActive ∧ s.recorderRecording then
    { s with recorderRecording := false, pendingOnstop := true }
  else s

/-- A successful `startListening` (`useAmbientListener.ts`, lines 88–147):
acquire the stream, start the recorder with an empty chunk buffer, set the
listening flag and start the harvest timer. -/
def ambientStart (s : AmbientState) : AmbientState × List AmbientEffect :=
  ({ s with streamActive := true, recorderRecording := true, chunkBytes := 0,
            isListening := true, timerActive := true },
   [AmbientEffect.recorderStart])

/-- `stopListening` (`useAmbientListener.ts`, lines 150–165): clear the
interval timer, call `recorder.stop()` if recording (queueing its `onstop`
event), stop every stream track (releasing the device), and null the refs. -/
def ambientStop (s : AmbientState) : AmbientState × List AmbientEffect :=
  ({ s with timerActive := false,
            pendingOnstop := s.pendingOnstop || s.recorderRecording,
            recorderRecording := false,
            streamActive := false,
            isListening := false },
   [AmbientEffect.deviceReleased])

/-- `clearTranscript` (`useAmbientListener.ts`, lines 168–170). -/
def clearTranscript (s : AmbientState) : AmbientState :=
  { s with entries := [] }

/-- The events a `useAmbientListener` instance reacts to. -/
inductive AmbientEvent where
  | start
  | data (bytes : Nat)
  | harvest
  | onstop (now : Nat) (outcome : SttOutcome)
  | stop
  | clear
deriving DecidableEq, Repr

/-- One event step of the ambient listener (effects and callback output
discarded). -/
def ambientStep (s : AmbientState) (e : AmbientEvent) : AmbientState :=
  match e with
  | AmbientEvent.start => (ambientStart s).1
  | AmbientEvent.data bytes => dataAvailable bytes s
  | AmbientEvent.harvest => harvestTick s
  | AmbientEvent.onstop now outcome => (deliverOnstop now outcome s).1
  | AmbientEvent.stop => (ambientStop s).1
  | AmbientEvent.clear => clearTranscript s

/-- The state of a freshly mounted `useAmbientListener` instance. -/
def initialAmbient : AmbientState :=
  { isListening := false, entries := [], streamActive := false,
    recorderRecording := false, timerActive := false, pendingOnstop := false,
    chunkBytes := 0, idCounter := 0 }

/-- Run one listener instance over a sequence of events. -/
def runAmbient (events : List AmbientEvent) : AmbientState :=
  events.foldl ambientStep initialAmbient

end Ambient

namespace Panel

open Ambient

/-- One `ChatMessage` of `AIChatPanel` (visual fields omitted). -/
structure ChatMessage where
  id : String
  role : String
  text : String
  timestamp : Nat
  mtype : Option String
deriving DecidableEq, Repr

/-- The reactive state of `AIChatPanel` relevant to the answer cycle:
the auto-reply toggle, the `isThinking` flag (mirrored into
`isThinkingRef`), the web-search toggle, the chat messages, the ambient
transcript log shared with `useAmbientListener`, and the answer `Audio`
elements currently playing.  An audio element enters `activeAudios` when
`audio.play()` starts and leaves it only when its own playback ends. -/
structure PanelState where
  autoReply : Bool
  isThinking : Bool
  useWebSearch : Bool
  messages : List ChatMessage
  entries : List TranscriptEntry
  activeAudios : List Nat
  nextAudio : Nat
deriving DecidableEq, Repr

/-- Observable external effects of an `AIChatPanel` answer cycle. -/
inductive PanelEffect where
  | ragFetch (question : String) (context : String)
  | webSearchFetch (question : String)
  | ttsFetch (text : String)
  | playStart (audioId : Nat)
  | pauseAudio (audioId : Nat)
deriving DecidableEq, Repr

/-- Whether an effect pauses an audio stream. -/
def PanelEffect.isPause : PanelEffect → Bool
  | PanelEffect.pauseAudio _ => true
  | _ => false

/-- Outcomes of the collaborator calls inside one `queryAI` run. -/
structure PanelEnv where
  ragOk : Bool
  ragAnswer : String
  ttsOk : Bool
  audioNonempty : Bool
deriving DecidableEq, Repr

/-- `getDiscussionContext` of `AIChatPanel`: the last ten transcript entries
joined with spaces, or the empty string when the log is empty. -/
def getDiscussionContext (entries : List TranscriptEntry) : String :=
  let recent := entries.drop (entries.length - 10)
  if recent.isEmpty then ""
  else "Recent discussion transcript:\n" ++
    String.intercalate " " (recent.map (fun e => e.text))

/-- The enriched slide context assembled inside `queryAI` before the
retrieval request. -/
def enrichedContext (slideContext : String) (entries : List TranscriptEntry) :
    String :=
  let discussionCtx := getDiscussionContext entries
  if discussionCtx = "" then slideContext
  else slideContext ++ "\n\n--- Ongoing Discussion ---\n" ++ discussionCtx

/-- `queryAI` of `AIChatPanel` (lines 79–191), run until the function
returns.  `setIsThinking(true)` happens after the user message is appended;
`setIsThinking(false)` is the last statement — it runs right after
`await audio.play()` resolves, i.e. as soon as playback has *started*, so on
return the answer audio is still in `activeAudios`.  TTS and playback
failures are swallowed by the inner try/catch. -/
def queryAI (env : PanelEnv) (now : Nat) (slideContext : String)
    (question : String) (src : String) (s : PanelState) :
    PanelState × List PanelEffect :=
  if jsTrim question = "" then (s, [])
  else
    let userMsg : ChatMessage :=
      { id := "u-" ++ Nat.repr now, role := "user", text := question,
        timestamp := now,
        mtype := if src = "ambient" then some "ambient" else none }
    let s := { s with messages := s.messages ++ [userMsg], isThinking := true }
    let reqEff :=
      if s.useWebSearch then PanelEffect.webSearchFetch question
      else PanelEffect.ragFetch question (enrichedContext slideContext s.entries)
    if !env.ragOk then
      let errMsg : ChatMessage :=
        { id := "e-" ++ Nat.repr now, role := "ai",
          text := "Sorry, something went wrong. Please try again.",
          timestamp := now, mtype := none }
      ({ s with messages := s.messages ++ [errMsg], isThinking := false },
       [reqEff])
    else
      let aiMsg : ChatMessage :=
        { id := "a-" ++ Nat.repr now, role := "ai", text := env.ragAnswer,
          timestamp := now,
          mtype := some (if s.useWebSearch then "web_search" else "rag") }
      let s := { s with messages := s.messages ++ [aiMsg] }
      let effs := [reqEff, PanelEffect.ttsFetch env.ragAnswer]
      if env.ttsOk && env.audioNonempty then
        let aid := s.nextAudio
        ({ s with activeAudios := aid :: s.activeAudios, nextAudio := aid + 1,
                  isThinking := false },
         effs ++ [PanelEffect.playStart aid])
      else
        ({ s with isThinking := false }, effs)

/-- The `onTranscriptEntry` callback of `AIChatPanel` (lines 50–56):
`if (!autoReply || isThinkingRef.current) return;` then forward the entry's
text to `queryAI` as an ambient question.  The returned flag records whether
the entry was forwarded. -/
def onTranscriptEntry (env : PanelEnv) (now : Nat) (slideContext : String)
    (e : TranscriptEntry) (s : PanelState) :
    PanelState × List PanelEffect × Bool :=
  if !s.autoReply || s.isThinking then (s, [], false)
  else
    let r := queryAI env now slideContext e.text "ambient" s
    (r.1, r.2, true)

/-- One new ambient transcript entry reaching the panel: `transcribeChunk`
appends it to the shared log (`setEntries`) and then invokes the
`onTranscript` callback, i.e. the auto-reply gate.  The callback runs before
the panel re-renders, so `queryAI` closes over the log *without* the new
entry; the append itself lands in the next state regardless (`queryAI`
never touches the log, so the functional state updates commute). -/
def ambientEntryEvent (env : PanelEnv) (now : Nat) (slideContext : String)
    (e : TranscriptEntry) (s : PanelState) :
    PanelState × List PanelEffect × Bool :=
  let r := onTranscriptEntry env now slideContext e s
  ({ r.1 with entries := r.1.entries ++ [e] }, r.2.1, r.2.2)

/-- The panel is busy Thinking exactly while `isThinking` is set; this is
the only state the auto-reply gate consults. -/
def panelThinking (s : PanelState) : Prop := s.isThinking = true

/-- The panel is Speaking while an answer audio stream is playing. -/
def panelSpeaking (s : PanelState) : Prop := s.activeAudios ≠ []

end Panel

/-! ### Decimal representation facts

`Ambient.mkEntryId` embeds `Nat.repr` of the timestamp and of the entry
counter in the id string.  To reason about id distinctness we relate
`Nat.repr` to a structurally recursive digit list and prove it injective. -/

/-- Structural version of the digit list produced by `Nat.toDigitsCore`
at base 10. -/
def natDigs (n : Nat) : List Char :=
  if h : n / 10 = 0 then [Nat.digitChar (n % 10)]
  else natDigs (n / 10) ++ [Nat.digitChar (n % 10)]
termination_by n
decreasing_by exact Nat.div_lt_self (by omega) (by omega)

/-- Numeric value of a digit character. -/
def digitVal (c : Char) : Nat := c.toNat - Char.toNat '0'

/-- Numeric value of a digit list, most significant digit first. -/
def digitsVal (l : List Char) : Nat :=
  l.foldl (fun a c => 10 * a + digitVal c) 0

/-- The characters after the last dash of a string. -/
def afterLastDash (s : String) : List Char :=
  ((s.data.reverse).takeWhile (fun c => c ≠ '-')).reverse

namespace Ambient

/-- Log well-formedness of a `useAmbientListener` instance: entry ids are
pairwise distinct, and every entry id embeds some counter value below the
instance's current `idCounter`. -/
def goodLog (s : AmbientState) : Prop :=
  s.entries.Pairwise (fun a b => a.id ≠ b.id) ∧
  ∀ e ∈ s.entries, ∃ t c, c < s.idCounter ∧ e.id = mkEntryId t c

end Ambient

/-! ### Concrete fixtures used by witnesses and counterexamples -/

/-- A fresh manual-mode orchestrator state. -/
def rsIdle : VoiceRAG.RAGState :=
  { state := VoiceState.idle, transcript := "", answer := "", sources := [],
    error := "", audioRef := none, active := [], nextAudio := 0 }

/-- An orchestrator state caught mid-cycle (Thinking). -/
def rsThinking : VoiceRAG.RAGState :=
  { rsIdle with state := VoiceState.thinking, transcript := "first question" }

/-- Collaborator outcomes where every call succeeds. -/
def envAllOk : VoiceRAG.FetchEnv :=
  { sttOk := true, sttTranscript := "what is the architecture",
    ragOk := true, ragAnswer := "an answer", ragSources := [], ttsOk := true,
    playbackOk := true }

/-- Collaborator outcomes where only the final audio playback fails. -/
def envPlaybackFail : VoiceRAG.FetchEnv :=
  { envAllOk with playbackOk := false }

/-- Collaborator outcomes where transcription succeeds with silence. -/
def envSilence : VoiceRAG.FetchEnv :=
  { envAllOk with sttTranscript := "   " }

/-- A chat panel with auto-reply on and nothing in flight. -/
def panelReady : Panel.PanelState :=
  { autoReply := true, isThinking := false, useWebSearch := false,
    messages := [], entries := [], activeAudios := [], nextAudio := 0 }

/-- A chat panel whose answer cycle is still Thinking. -/
def panelBusy : Panel.PanelState := { panelReady with isThinking := true }

/-- Panel collaborator outcomes where every call succeeds. -/
def panelEnvOk : Panel.PanelEnv :=
  { ragOk := true, ragAnswer := "the answer", ttsOk := true,
    audioNonempty := true }

/-- A first ambient transcript entry. -/
def entryOne : Ambient.TranscriptEntry :=
  { id := "t-1-0", text := "what about the roadmap", timestamp := 1 }

/-- A second ambient transcript entry, arriving one second later. -/
def entryTwo : Ambient.TranscriptEntry :=
  { id := "t-2-1", text := "and what about the budget", timestamp := 2 }

/-- The panel right after the first ambient entry has been forwarded and its
answer cycle has run to the point where answer playback has started. -/
def panelAfterFirst : Panel.PanelState :=
  (Panel.ambientEntryEvent panelEnvOk 1 "slide context" entryOne panelReady).1

/-- The panel after a second ambient entry arrives while the first answer is
still being spoken. -/
def panelAfterSecond : Panel.PanelState :=
  (Panel.ambientEntryEvent panelEnvOk 2 "slide context" entryTwo
    panelAfterFirst).1

/-- An ambient listener mid-segment: capturing, timer armed, 5000 bytes
buffered in the segment in progress. -/
def ambListening : Ambient.AmbientState :=
  { isListening := true, entries := [], streamActive := true,
    recorderRecording := true, timerActive := true, pendingOnstop := false,
    chunkBytes := 5000, idCounter := 0 }

/-- The listener right after `stopListening`, its `onstop` event still
queued. -/
def ambStopped : Ambient.AmbientState := (Ambient.ambientStop ambListening).1

theorem digitsVal_append_singleton (l : List Char) (c : Char) :
    digitsVal (l ++ [c]) = 10 * digitsVal l + digitVal c := by
  simp [digitsVal, List.foldl_append]

theorem digitVal_digitChar_all : ∀ m, m < 10 → digitVal (Nat.digitChar m) = m := by
  decide

theorem digitChar_ne_dash_all : ∀ m, m < 10 → Nat.digitChar m ≠ '-' := by
  decide

theorem digitVal_digitChar {m : Nat} (h : m < 10) :
    digitVal (Nat.digitChar m) = m := digitVal_digitChar_all m h

theorem digitChar_ne_dash {m : Nat} (h : m < 10) : Nat.digitChar m ≠ '-' :=
  digitChar_ne_dash_all m h

theorem digitsVal_natDigs (n : Nat) : digitsVal (natDigs n) = n := by
  induction n using Nat.strong_induction_on with
  | _ n ih =>
    rw [natDigs]
    by_cases h : n / 10 = 0
    · have hn : n < 10 := by omega
      have hm : n % 10 = n := by omega
      simp [h, digitsVal, hm, digitVal_digitChar hn]
    · rw [dif_neg h, digitsVal_append_singleton,
        ih (n / 10) (Nat.div_lt_self (by omega) (by omega)),
        digitVal_digitChar (Nat.mod_lt n (by omega))]
      omega

theorem natDigs_injective {m n : Nat} (h : natDigs m = natDigs n) : m = n := by
  have := congrArg digitsVal h
  rwa [digitsVal_natDigs, digitsVal_natDigs] at this

theorem natDigs_ne_dash (n : Nat) : ∀ c ∈ natDigs n, c ≠ '-' := by
  induction n using Nat.strong_induction_on with
  | _ n ih =>
    rw [natDigs]
    by_cases h : n / 10 = 0
    · simp [h, digitChar_ne_dash (Nat.mod_lt n (by omega))]
    · rw [dif_neg h]
      intro c hc
      rcases List.mem_append.mp hc with hl | hr
      · exact ih (n / 10) (Nat.div_lt_self (by omega) (by omega)) c hl
      · rcases List.mem_singleton.mp hr with rfl
        exact digitChar_ne_dash (Nat.mod_lt n (by omega))

theorem toDigitsCore_eq_natDigs (fuel : Nat) :
    ∀ (n : Nat) (ds : List Char), n < fuel →
      Nat.toDigitsCore 10 fuel n ds = natDigs n ++ ds := by
  induction fuel with
  | zero => intro n ds h; omega
  | succ fuel ih =>
    intro n ds h
    rw [Nat.toDigitsCore]
    by_cases h10 : n / 10 = 0
    · rw [if_pos h10, natDigs, dif_pos h10]
      rfl
    · rw [if_neg h10,
        ih (n / 10) (Nat.digitChar (n % 10) :: ds)
          (by have := Nat.div_lt_self (show 0 < n by omega) (show 1 < 10 by omega); omega)]
      conv_rhs => rw [natDigs, dif_neg h10]
      simp

theorem repr_eq_natDigs (n : Nat) : Nat.repr n = (natDigs n).asString := by
  rw [Nat.repr, Nat.toDigits, toDigitsCore_eq_natDigs (n + 1) n [] (Nat.lt_succ_self n)]
  simp

theorem repr_data_eq (n : Nat) : (Nat.repr n).data = natDigs n := by
  rw [repr_eq_natDigs]
  rfl

theorem repr_injective {m n : Nat} (h : Nat.repr m = Nat.repr n) : m = n := by
  apply natDigs_injective
  rw [← repr_data_eq, ← repr_data_eq, h]

theorem repr_ne_dash (n : Nat) : ∀ c ∈ (Nat.repr n).data, c ≠ '-' := by
  rw [repr_data_eq]
  exact natDigs_ne_dash n

theorem takeWhile_append_stop {α : Type} (p : α → Bool) (l₁ l₂ : List α) (x : α)
    (h : ∀ c ∈ l₁, p c = true) (hx : p x = false) :
    (l₁ ++ x :: l₂).takeWhile p = l₁ := by
  induction l₁ with
  | nil => simp [List.takeWhile_cons, hx]
  | cons a l ihl =>
      simp only [List.cons_append, List.takeWhile_cons, h a (by simp)]
      rw [ihl (fun c hc => h c (by simp [hc]))]
      simp

theorem afterLastDash_spec (l₁ l₂ : List Char) (h : ∀ c ∈ l₂, c ≠ '-') :
    afterLastDash (String.mk (l₁ ++ '-' :: l₂)) = l₂ := by
  unfold afterLastDash
  simp only [List.reverse_append, List.reverse_cons, List.append_assoc,
    List.singleton_append]
  rw [takeWhile_append_stop _ l₂.reverse l₁.reverse '-'
    (fun c hc => by simpa using h c (List.mem_reverse.mp hc))
    (by simp)]
  simp

namespace Ambient

theorem mkEntryId_data (t c : Nat) :
    (mkEntryId t c).data =
      ('t' :: '-' :: (Nat.repr t).data) ++ '-' :: (Nat.repr c).data := by
  simp [mkEntryId, String.data_append]

theorem afterLastDash_mkEntryId (t c : Nat) :
    afterLastDash (mkEntryId t c) = (Nat.repr c).data := by
  have h : mkEntryId t c =
      String.mk (('t' :: '-' :: (Nat.repr t).data) ++ '-' :: (Nat.repr c).data) := by
    apply congrArg String.mk (mkEntryId_data t c)
  rw [h, afterLastDash_spec _ _ (repr_ne_dash c)]

theorem mkEntryId_counter_inj {t c t₂ c₂ : Nat}
    (h : mkEntryId t c = mkEntryId t₂ c₂) : c = c₂ := by
  have h₂ := congrArg afterLastDash h
  rw [afterLastDash_mkEntryId, afterLastDash_mkEntryId] at h₂
  exact repr_injective (congrArg String.mk h₂)

theorem transcribeChunk_shape (now : Nat) (outcome : SttOutcome)
    (blobSize : Nat) (s : AmbientState) :
    (transcribeChunk now outcome blobSize s).1 = s ∨
    ∃ text, (transcribeChunk now outcome blobSize s).1 =
      { s with
          entries := s.entries ++
            [{ id := mkEntryId now s.idCounter, text := text,
               timestamp := now }],
          idCounter := s.idCounter + 1 } := by
  unfold transcribeChunk
  by_cases hb : blobSize < 1000
  · left; simp [hb]
  · cases outcome with
    | httpError => left; simp [hb]
    | fetchError => left; simp [hb]
    | ok t =>
      by_cases ht : jsTrim t = ""
      · left; simp [hb, ht]
      · right; exact ⟨jsTrim t, by simp [hb, ht]⟩

theorem goodLog_append (s : AmbientState) (text : String) (now : Nat)
    (h : goodLog s) :
    goodLog { s with
      entries := s.entries ++
        [{ id := mkEntryId now s.idCounter, text := text, timestamp := now }],
      idCounter := s.idCounter + 1 } := by
  constructor
  · rw [List.pairwise_append]
    refine ⟨h.1, List.pairwise_singleton _ _, ?_⟩
    intro a ha b hb
    rcases List.mem_singleton.mp hb with rfl
    obtain ⟨t, c, hc, hid⟩ := h.2 a ha
    intro heq
    rw [hid] at heq
    have := mkEntryId_counter_inj heq
    omega
  · intro e he
    rcases List.mem_append.mp he with hl | hr
    · obtain ⟨t, c, hc, hid⟩ := h.2 e hl
      exact ⟨t, c, Nat.lt_succ_of_lt hc, hid⟩
    · rcases List.mem_singleton.mp hr with rfl
      exact ⟨now, s.idCounter, Nat.lt_succ_self _, rfl⟩

theorem goodLog_transcribeChunk (now : Nat) (outcome : SttOutcome)
    (blobSize : Nat) (s : AmbientState) (h : goodLog s) :
    goodLog (transcribeChunk now outcome blobSize s).1 := by
  rcases transcribeChunk_shape now outcome blobSize s with hs | ⟨text, hs⟩
  · rw [hs]; exact h
  · rw [hs]; exact goodLog_append s text now h

theorem goodLog_deliverOnstop (now : Nat) (outcome : SttOutcome)
    (s : AmbientState) (h : goodLog s) :
    goodLog (deliverOnstop now outcome s).1 := by
  unfold deliverOnstop
  split
  · exact h
  · have h₂ := goodLog_transcribeChunk now outcome s.chunkBytes
      { s with pendingOnstop := false, chunkBytes := 0 } h
    dsimp only
    split
    · exact h₂
    · exact h₂

theorem goodLog_step (s : AmbientState) (e : AmbientEvent) (h : goodLog s) :
    goodLog (ambientStep s e) := by
  cases e with
  | start => exact h
  | data bytes =>
      show goodLog (dataAvailable bytes s)
      unfold dataAvailable
      split
      · exact h
      · exact h
  | harvest =>
      show goodLog (harvestTick s)
      unfold harvestTick
      split
      · exact h
      · exact h
  | onstop now outcome => exact goodLog_deliverOnstop now outcome s h
  | stop => exact h
  | clear =>
      exact ⟨List.Pairwise.nil, fun e he => absurd he (List.not_mem_nil e)⟩

theorem goodLog_runAmbient (events : List AmbientEvent) :
    goodLog (runAmbient events) := by
  have key : ∀ (evs : List AmbientEvent) (s : AmbientState), goodLog s →
      goodLog (evs.foldl ambientStep s) := by
    intro evs
    induction evs with
    | nil => intro s hs; exact hs
    | cons e evs ih => intro s hs; exact ih _ (goodLog_step s e hs)
  exact key events initialAmbient
    ⟨List.Pairwise.nil, fun e he => absurd he (List.not_mem_nil e)⟩

end Ambient

/-! ### Helper lemmas about the orchestrator and panel cycles -/

theorem processAudio_sttFetch_mem (env : VoiceRAG.FetchEnv) (blobSize : Nat)
    (s : VoiceRAG.RAGState) :
    VoiceRAG.Effect.sttFetch blobSize ∈
      (VoiceRAG.processAudio env blobSize s).2 := by
  unfold VoiceRAG.processAudio
  by_cases h1 : env.sttOk <;>
    by_cases h2 : jsTrim env.sttTranscript = "" <;>
    by_cases h3 : env.ragOk <;>
    by_cases h4 : env.ttsOk <;>
    by_cases h5 : env.playbackOk <;>
    simp [h1, h2, h3, h4, h5]

theorem processAudio_no_pause (env : VoiceRAG.FetchEnv) (blobSize : Nat)
    (s : VoiceRAG.RAGState) :
    (VoiceRAG.processAudio env blobSize s).2.filter VoiceRAG.Effect.isPause
      = [] := by
  unfold VoiceRAG.processAudio
  by_cases h1 : env.sttOk <;>
    by_cases h2 : jsTrim env.sttTranscript = "" <;>
    by_cases h3 : env.ragOk <;>
    by_cases h4 : env.ttsOk <;>
    by_cases h5 : env.playbackOk <;>
    simp [h1, h2, h3, h4, h5, VoiceRAG.Effect.isPause]

theorem processAudio_keeps_active (env : VoiceRAG.FetchEnv) (blobSize : Nat)
    (s : VoiceRAG.RAGState) (a : Nat) (ha : a ∈ s.active) :
    a ∈ (VoiceRAG.processAudio env blobSize s).1.active := by
  unfold VoiceRAG.processAudio
  by_cases h1 : env.sttOk <;>
    by_cases h2 : jsTrim env.sttTranscript = "" <;>
    by_cases h3 : env.ragOk <;>
    by_cases h4 : env.ttsOk <;>
    by_cases h5 : env.playbackOk <;>
    simp [h1, h2, h3, h4, h5, List.erase_cons_head, ha]

theorem queryAI_no_pause (env : Panel.PanelEnv) (now : Nat)
    (ctx q src : String) (s : Panel.PanelState) :
    (Panel.queryAI env now ctx q src s).2.filter Panel.PanelEffect.isPause
      = [] := by
  unfold Panel.queryAI
  by_cases h0 : jsTrim q = "" <;>
    by_cases hw : s.useWebSearch <;>
    by_cases h1 : env.ragOk <;>
    by_cases h2 : env.ttsOk && env.audioNonempty <;>
    simp [h0, hw, h1, h2, Panel.PanelEffect.isPause]

theorem queryAI_keeps_active (env : Panel.PanelEnv) (now : Nat)
    (ctx q src : String) (s : Panel.PanelState) (a : Nat)
    (ha : a ∈ s.activeAudios) :
    a ∈ (Panel.queryAI env now ctx q src s).1.activeAudios := by
  unfold Panel.queryAI
  by_cases h0 : jsTrim q = "" <;>
    by_cases h1 : env.ragOk <;>
    by_cases h2 : env.ttsOk && env.audioNonempty <;>
    simp [h0, h1, h2, ha]

theorem transcribeChunk_effects (now : Nat) (outcome : Ambient.SttOutcome)
    (blobSize : Nat) (s : Ambient.AmbientState) (h : ¬ blobSize < 1000) :
    (Ambient.transcribeChunk now outcome blobSize s).2.1 =
      [Ambient.AmbientEffect.sttFetch blobSize] := by
  unfold Ambient.transcribeChunk
  rw [if_neg h]
  cases outcome with
  | httpError => rfl
  | fetchError => rfl
  | ok t => by_cases ht : jsTrim t = "" <;> simp [ht]

theorem transcribeChunk_flags (now : Nat) (outcome : Ambient.SttOutcome)
    (blobSize : Nat) (s : Ambient.AmbientState) :
    (Ambient.transcribeChunk now outcome blobSize s).1.streamActive
        = s.streamActive ∧
    (Ambient.transcribeChunk now outcome blobSize s).1.recorderRecording
        = s.recorderRecording := by
  rcases Ambient.transcribeChunk_shape now outcome blobSize s with hs | ⟨t, hs⟩ <;>
    rw [hs]
  · exact ⟨rfl, rfl⟩
  · exact ⟨rfl, rfl⟩

/-! ### Claim theorems -/

/-- **C5**: while an answer cycle is active (orchestrator state neither Idle
nor Error), a microphone click never starts a new capture and a text
submission is rejected with the state unchanged and no effects — so at most
one answer cycle is active per orchestrator instance. -/
theorem claim_C5_busy_rejects_new_cycle (s : VoiceState)
    (env : VoiceRAG.FetchEnv) (exnMsg input : String) (ragThrew : Bool)
    (rs : VoiceRAG.RAGState) (h₁ : s ≠ VoiceState.idle)
    (h₂ : s ≠ VoiceState.error) (hs : rs.state = s) :
    VoicePanel.handleMicClick s ≠ VoicePanel.MicAction.startCapture ∧
    VoicePanel.handleTextAsk env exnMsg ragThrew input rs = (rs, []) := by
  constructor
  · cases s <;> simp_all [VoicePanel.handleMicClick]
  · unfold VoicePanel.handleTextAsk
    rw [if_pos (Or.inr (by rw [hs]; exact h₁))]

/-- Witness for C5 at the concrete state Thinking. -/
theorem claim_C5_witness :
    VoicePanel.handleMicClick VoiceState.thinking ≠
      VoicePanel.MicAction.startCapture ∧
    VoicePanel.handleTextAsk envAllOk "boom" false "another question"
      rsThinking = (rsThinking, []) :=
  claim_C5_busy_rejects_new_cycle VoiceState.thinking envAllOk "boom"
    "another question" false rsThinking (by decide) (by decide) rfl

/-- **C7**: cancelling playback (`stopSpeaking`) sets the orchestrator state
to Idle and leaves the answer, sources and transcript fields unchanged. -/
theorem claim_C7_stopSpeaking_idle_frame (s : VoiceRAG.RAGState) :
    (VoiceRAG.stopSpeaking s).1.state = VoiceState.idle ∧
    (VoiceRAG.stopSpeaking s).1.answer = s.answer ∧
    (VoiceRAG.stopSpeaking s).1.sources = s.sources ∧
    (VoiceRAG.stopSpeaking s).1.transcript = s.transcript := by
  unfold VoiceRAG.stopSpeaking
  rcases hax : s.audioRef with _ | aid <;> simp [hax]

/-- **C9**: a successful `startListening` call clears the error, answer and
transcript fields before capture begins, so no stale output from a previous
cycle is visible when the new capture starts. -/
theorem claim_C9_startListening_resets (s : VoiceRAG.RAGState) :
    (VoiceRAG.startListening true s).error = "" ∧
    (VoiceRAG.startListening true s).answer = "" ∧
    (VoiceRAG.startListening true s).transcript = "" ∧
    (VoiceRAG.startListening true s).state = VoiceState.listening := by
  simp [VoiceRAG.startListening]

/-- **C10**: within one `useAmbientListener` instance, after any sequence of
listener events the transcript-log entries have pairwise distinct `id`
fields: each id embeds the strictly increasing `idCounter` value. -/
theorem claim_C10_entry_ids_distinct (events : List Ambient.AmbientEvent) :
    (Ambient.runAmbient events).entries.Pairwise (fun a b => a.id ≠ b.id) :=
  (Ambient.goodLog_runAmbient events).1

/-- **C1** counterexample: with auto-reply enabled, the first ambient entry
is forwarded and its answer cycle runs until the answer audio has started
playing; `setIsThinking(false)` executes as soon as `audio.play()` resolves,
so while the answer is still being spoken (the orchestrator is Speaking,
`activeAudios ≠ []`) a second entry arrives and is forwarded too — the claim
says an entry arriving during Speaking is never forwarded. -/
theorem claim_C1_counterexample :
    panelAfterFirst.isThinking = false ∧
    panelAfterFirst.activeAudios ≠ [] ∧
    (Panel.ambientEntryEvent panelEnvOk 2 "slide context" entryTwo
      panelAfterFirst).2.2 = true := by
  decide

/-- **C1 (amended)**: the auto-reply gate forwards a new transcript entry to
the orchestrator iff auto-reply is enabled and the panel's `isThinking` flag
is down (the flag covers question submission up to the start of answer
playback, not playback itself); an entry arriving while Thinking is still
appended to the transcript log but nothing else changes — it is neither
forwarded nor queued for later. -/
theorem claim_C1_amended_gate (env : Panel.PanelEnv) (now : Nat)
    (ctx : String) (e : Ambient.TranscriptEntry) (s : Panel.PanelState) :
    ((Panel.ambientEntryEvent env now ctx e s).2.2 = true ↔
      s.autoReply = true ∧ s.isThinking = false) ∧
    (s.isThinking = true →
      Panel.ambientEntryEvent env now ctx e s =
        ({ s with entries := s.entries ++ [e] }, [], false)) := by
  constructor
  · unfold Panel.ambientEntryEvent Panel.onTranscriptEntry
    by_cases h1 : s.autoReply <;> by_cases h2 : s.isThinking <;>
      simp [h1, h2]
  · intro ht
    unfold Panel.ambientEntryEvent Panel.onTranscriptEntry
    simp [ht]

/-- Witness for the amended C1 at a concrete Thinking state. -/
theorem claim_C1_amended_witness :
    Panel.ambientEntryEvent panelEnvOk 7 "slide context" entryOne panelBusy =
      ({ panelBusy with entries := panelBusy.entries ++ [entryOne] }, [],
        false) :=
  (claim_C1_amended_gate panelEnvOk 7 "slide context" entryOne panelBusy).2
    rfl

/-- **C2** counterexample: a cycle whose retrieval succeeded (answer
`"an answer"` received) and whose audio playback then fails keeps the answer
text but moves the orchestrator to Error — not to Idle as the claim
states. -/
theorem claim_C2_counterexample :
    (VoiceRAG.processAudio envPlaybackFail 40000 rsIdle).1.answer
        = "an answer" ∧
    (VoiceRAG.processAudio envPlaybackFail 40000 rsIdle).1.state
        ≠ VoiceState.idle ∧
    (VoiceRAG.processAudio envPlaybackFail 40000 rsIdle).1.state
        = VoiceState.error ∧
    (VoiceRAG.processAudio envPlaybackFail 40000 rsIdle).1.error
        = "Audio playback failed" := by
  decide

/-- **C2 (amended)**: once the retrieval response has been received, a
subsequent playback failure leaves the already-received answer text in place
and moves the orchestrator to Error, surfacing the playback error message
(the `catch` handler sets `state = "error"`, it does not return to Idle). -/
theorem claim_C2_amended_playback_failure (env : VoiceRAG.FetchEnv)
    (blobSize : Nat) (s : VoiceRAG.RAGState) (h1 : env.sttOk = true)
    (h2 : jsTrim env.sttTranscript ≠ "") (h3 : env.ragOk = true)
    (h4 : env.ttsOk = true) (h5 : env.playbackOk = false) :
    (VoiceRAG.processAudio env blobSize s).1.answer = env.ragAnswer ∧
    (VoiceRAG.processAudio env blobSize s).1.state = VoiceState.error ∧
    (VoiceRAG.processAudio env blobSize s).1.error
        = "Audio playback failed" := by
  unfold VoiceRAG.processAudio
  simp [h1, h2, h3, h4, h5]

/-- Witness for the amended C2 at a concrete playback-failure run. -/
theorem claim_C2_witness :
    (VoiceRAG.processAudio envPlaybackFail 40000 rsIdle).1.answer
        = envPlaybackFail.ragAnswer ∧
    (VoiceRAG.processAudio envPlaybackFail 40000 rsIdle).1.state
        = VoiceState.error ∧
    (VoiceRAG.processAudio envPlaybackFail 40000 rsIdle).1.error
        = "Audio playback failed" :=
  claim_C2_amended_playback_failure envPlaybackFail 40000 rsIdle rfl
    (by decide) rfl rfl rfl

/-- **C3** counterexample: `stopListening` on a listener with a 5000-byte
in-progress segment does cancel the timer, but the queued `onstop` handler
still sends the finalized segment to transcription (a speech-to-text request
for the 5000-byte blob is issued) and its transcript is even appended to the
log — the claim says the in-progress segment is discarded without being sent
for transcription. -/
theorem claim_C3_counterexample :
    ambStopped.timerActive = false ∧
    Ambient.AmbientEffect.sttFetch 5000 ∈
      (Ambient.deliverOnstop 9 (Ambient.SttOutcome.ok "final words")
        ambStopped).2.1 ∧
    (Ambient.deliverOnstop 9 (Ambient.SttOutcome.ok "final words")
      ambStopped).1.entries ≠ [] := by
  decide

/-- **C3 (amended)**: `stopListening` cancels the harvest timer, releases
the microphone device and prevents the recorder from restarting, but it does
not discard the in-progress segment: the queued `onstop` handler still
finalizes it and (when it reaches the 1000-byte threshold) sends it for
transcription. -/
theorem claim_C3_amended_stop (s : Ambient.AmbientState) (now : Nat)
    (outcome : Ambient.SttOutcome) (hrec : s.recorderRecording = true)
    (hsize : 1000 ≤ s.chunkBytes) :
    (Ambient.ambientStop s).1.timerActive = false ∧
    (Ambient.ambientStop s).1.streamActive = false ∧
    Ambient.AmbientEffect.deviceReleased ∈ (Ambient.ambientStop s).2 ∧
    (Ambient.deliverOnstop now outcome (Ambient.ambientStop s).1).2.1 =
      [Ambient.AmbientEffect.sttFetch s.chunkBytes] ∧
    (Ambient.deliverOnstop now outcome
      (Ambient.ambientStop s).1).1.recorderRecording = false := by
  have hchunk : ¬ s.chunkBytes < 1000 := by omega
  refine ⟨rfl, rfl, List.mem_singleton_self _, ?_, ?_⟩
  · unfold Ambient.ambientStop Ambient.deliverOnstop
    simp only [hrec, Bool.or_true, Bool.not_true, Bool.false_eq_true,
      if_false]
    rw [(transcribeChunk_flags now outcome s.chunkBytes _).1]
    simp [transcribeChunk_effects now outcome s.chunkBytes _ hchunk]
  · unfold Ambient.ambientStop Ambient.deliverOnstop
    simp only [hrec, Bool.or_true, Bool.not_true, Bool.false_eq_true,
      if_false]
    rw [(transcribeChunk_flags now outcome s.chunkBytes _).1]
    simp [(transcribeChunk_flags now outcome s.chunkBytes _).2]

/-- Witness for the amended C3 at a concrete mid-segment listener state. -/
theorem claim_C3_witness :
    (Ambient.ambientStop ambListening).1.timerActive = false ∧
    (Ambient.ambientStop ambListening).1.streamActive = false ∧
    Ambient.AmbientEffect.deviceReleased ∈
      (Ambient.ambientStop ambListening).2 ∧
    (Ambient.deliverOnstop 9 (Ambient.SttOutcome.ok "final words")
      (Ambient.ambientStop ambListening).1).2.1 =
      [Ambient.AmbientEffect.sttFetch ambListening.chunkBytes] ∧
    (Ambient.deliverOnstop 9 (Ambient.SttOutcome.ok "final words")
      (Ambient.ambientStop ambListening).1).1.recorderRecording = false :=
  claim_C3_amended_stop ambListening 9 (Ambient.SttOutcome.ok "final words")
    rfl (by decide)

/-- **C4** counterexample: in manual mode a 500-byte segment — below the
1000-byte minimum threshold — still triggers a speech-to-text request:
`processAudio` has no size check. -/
theorem claim_C4_counterexample :
    VoiceRAG.Effect.sttFetch 500 ∈
      (VoiceRAG.processAudio envAllOk 500 rsIdle).2 := by
  decide

/-- **C4 (amended)**: the 1000-byte minimum threshold exists only in
continuous mode: `transcribeChunk` drops a smaller blob without any request,
state change or entry, while manual-mode `processAudio` issues a
speech-to-text request for every segment regardless of size. -/
theorem claim_C4_amended_threshold (now : Nat) (outcome : Ambient.SttOutcome)
    (blobSize : Nat) (s : Ambient.AmbientState) (h : blobSize < 1000)
    (env : VoiceRAG.FetchEnv) (sz : Nat) (rs : VoiceRAG.RAGState) :
    Ambient.transcribeChunk now outcome blobSize s = (s, [], none) ∧
    VoiceRAG.Effect.sttFetch sz ∈ (VoiceRAG.processAudio env sz rs).2 := by
  constructor
  · unfold Ambient.transcribeChunk
    rw [if_pos h]
  · exact processAudio_sttFetch_mem env sz rs

/-- Witness for the amended C4 at a concrete 500-byte segment. -/
theorem claim_C4_witness :
    Ambient.transcribeChunk 3 (Ambient.SttOutcome.ok "hello") 500
        ambListening = (ambListening, [], none) ∧
    VoiceRAG.Effect.sttFetch 500 ∈
      (VoiceRAG.processAudio envAllOk 500 rsIdle).2 :=
  claim_C4_amended_threshold 3 (Ambient.SttOutcome.ok "hello") 500
    ambListening (by decide) envAllOk 500 rsIdle

/-- **C6**: an empty or whitespace-only transcription result is silent: in
manual mode the orchestrator returns to Idle with the error field untouched
and no retrieval request issued; in continuous mode no `TranscriptEntry` is
created and the listener state is unchanged. -/
theorem claim_C6_empty_transcript_silent (env : VoiceRAG.FetchEnv)
    (blobSize : Nat) (s : VoiceRAG.RAGState) (h1 : env.sttOk = true)
    (h2 : jsTrim env.sttTranscript = "") (now blobSize₂ : Nat) (t : String)
    (a : Ambient.AmbientState) (h3 : jsTrim t = "") :
    (VoiceRAG.processAudio env blobSize s).1.state = VoiceState.idle ∧
    (VoiceRAG.processAudio env blobSize s).1.error = s.error ∧
    (∀ q, VoiceRAG.Effect.ragFetch q ∉
      (VoiceRAG.processAudio env blobSize s).2) ∧
    (Ambient.transcribeChunk now (Ambient.SttOutcome.ok t) blobSize₂ a).1
        = a ∧
    (Ambient.transcribeChunk now (Ambient.SttOutcome.ok t) blobSize₂ a).2.2
        = none := by
  refine ⟨?_, ?_, ?_, ?_, ?_⟩
  · unfold VoiceRAG.processAudio
    simp [h1, h2]
  · unfold VoiceRAG.processAudio
    simp [h1, h2]
  · unfold VoiceRAG.processAudio
    simp [h1, h2]
  · unfold Ambient.transcribeChunk
    by_cases hb : blobSize₂ < 1000 <;> simp [hb, h3]
  · unfold Ambient.transcribeChunk
    by_cases hb : blobSize₂ < 1000 <;> simp [hb, h3]

/-- Witness for C6 at a concrete whitespace-only transcription. -/
theorem claim_C6_witness :
    (VoiceRAG.processAudio envSilence 40000 rsIdle).1.state
        = VoiceState.idle ∧
    (VoiceRAG.processAudio envSilence 40000 rsIdle).1.error = rsIdle.error ∧
    (∀ q, VoiceRAG.Effect.ragFetch q ∉
      (VoiceRAG.processAudio envSilence 40000 rsIdle).2) ∧
    (Ambient.transcribeChunk 4 (Ambient.SttOutcome.ok "  ") 2000
        ambListening).1 = ambListening ∧
    (Ambient.transcribeChunk 4 (Ambient.SttOutcome.ok "  ") 2000
        ambListening).2.2 = none :=
  claim_C6_empty_transcript_silent envSilence 40000 rsIdle rfl (by decide)
    4 2000 "  " ambListening (by decide)

/-- **C8** counterexample: while the first answer audio (stream 0) is still
playing, a second forwarded entry starts stream 1; no pause effect is
emitted and both streams are active simultaneously — the claim says a new
playback first stops the previous stream, so that exactly one stream plays
at a time. -/
theorem claim_C8_counterexample :
    panelAfterSecond.activeAudios = [1, 0] ∧
    Panel.PanelEffect.playStart 1 ∈
      (Panel.ambientEntryEvent panelEnvOk 2 "slide context" entryTwo
        panelAfterFirst).2.1 ∧
    (Panel.ambientEntryEvent panelEnvOk 2 "slide context" entryTwo
      panelAfterFirst).2.1.filter Panel.PanelEffect.isPause = [] := by
  decide

/-- **C8 (amended)**: starting a new answer playback never stops a previous
stream: neither the chat panel's `queryAI` nor `processAudio` ever emits a
pause, and every previously active stream is still active afterwards — in
the chat panel two answer streams can therefore play simultaneously; only
the user-initiated `stopSpeaking` pauses a stream. -/
theorem claim_C8_amended_no_stop (env : Panel.PanelEnv) (now : Nat)
    (ctx q src : String) (s : Panel.PanelState) (a : Nat)
    (env₂ : VoiceRAG.FetchEnv) (blobSize : Nat) (rs : VoiceRAG.RAGState)
    (b : Nat) (ha : a ∈ s.activeAudios) (hb : b ∈ rs.active) :
    (Panel.queryAI env now ctx q src s).2.filter Panel.PanelEffect.isPause
        = [] ∧
    a ∈ (Panel.queryAI env now ctx q src s).1.activeAudios ∧
    (VoiceRAG.processAudio env₂ blobSize rs).2.filter VoiceRAG.Effect.isPause
        = [] ∧
    b ∈ (VoiceRAG.processAudio env₂ blobSize rs).1.active :=
  ⟨queryAI_no_pause env now ctx q src s,
   queryAI_keeps_active env now ctx q src s a ha,
   processAudio_no_pause env₂ blobSize rs,
   processAudio_keeps_active env₂ blobSize rs b hb⟩

/-- Witness for the amended C8 with one stream already active on each
side. -/
theorem claim_C8_witness :
    (Panel.queryAI panelEnvOk 2 "slide context" "and what about the budget"
      "ambient" panelAfterFirst).2.filter Panel.PanelEffect.isPause = [] ∧
    0 ∈ (Panel.queryAI panelEnvOk 2 "slide context"
      "and what about the budget" "ambient" panelAfterFirst).1.activeAudios ∧
    (VoiceRAG.processAudio envAllOk 40000
      { rsIdle with active := [7] }).2.filter VoiceRAG.Effect.isPause = [] ∧
    7 ∈ (VoiceRAG.processAudio envAllOk 40000
      { rsIdle with active := [7] }).1.active :=
  claim_C8_amended_no_stop panelEnvOk 2 "slide context"
    "and what about the budget" "ambient" panelAfterFirst 0 envAllOk 40000
    { rsIdle with active := [7] } 7 (by decide) (by decide)

end ConsultDeck
